import Mathlib

/-!
Verification development for the Polygon arbitrage monitor
(pool analysis, simulation engine, safety checker, executor,
bundle submitter, transaction listener).

The TypeScript sources are embedded shallowly:
* `bigint` values become `ℤ` (all claim-relevant values are non-negative,
  so the rounding convention of division never matters below);
* `Decimal`/`number` arithmetic becomes exact `ℚ` arithmetic;
* values read from `process.env` become fields of explicit config
  structures (`SafetyConfig`, `ExecutorConfig`, …);
* network calls become fields of explicit environment structures
  (`SimEnv`, `ExecEnv`) describing the outcome of each external call;
* a thrown Javascript exception becomes `Except.error` carrying the
  message; a caught exception is an `Except` match.
-/

namespace ArbMonitor

/-! ### Data model (src/types/index.ts) -/

/-- `Token` from src/types/index.ts. -/
structure Token where
  address : String
  symbol : String
  decimals : ℕ
  priceUSD : Option ℚ
deriving DecidableEq, Repr

/-- `PoolState` from src/types/index.ts.  `dexType` keeps the string
values of the `DEXType` enum. -/
structure PoolState where
  dexType : String
  address : String
  token0 : Token
  token1 : Token
  reserve0 : ℤ
  reserve1 : ℤ
  fee : Option ℕ
  liquidity : Option ℤ
  sqrtPriceX96 : Option ℤ
  currentTick : Option ℤ
  twapPrice : Option ℚ
  timestamp : ℕ
deriving DecidableEq, Repr

/-- `PendingTx` from src/types/index.ts (`from` and `to` are reserved
words in this Lean setup, hence `fromAddr`/`toAddr`). -/
structure PendingTx where
  hash : String
  fromAddr : String
  toAddr : Option String
  value : String
  data : String
  gasPrice : String
  gasLimit : String
  nonce : ℤ
  timestamp : ℕ
  source : String
deriving DecidableEq, Repr

/-- `OpportunityType` enum from src/types/index.ts. -/
inductive OpportunityType where
  | crossDexArbitrage
  | jitLiquidity
  | twapArbitrage
  | triangleCycle
  | statisticalArbitrage
deriving DecidableEq, Repr

/-- The string value of each `OpportunityType` enum member. -/
def OpportunityType.str : OpportunityType → String
  | .crossDexArbitrage => "cross_dex_arbitrage"
  | .jitLiquidity => "jit_liquidity"
  | .twapArbitrage => "twap_arbitrage"
  | .triangleCycle => "triangle_cycle"
  | .statisticalArbitrage => "statistical_arbitrage"

/-- `StateDeviation` from src/types/index.ts. -/
structure StateDeviation where
  poolAddress : String
  expectedState : PoolState
  actualState : PoolState
  deviationBPS : ℚ
deriving DecidableEq, Repr

/-- `SimulationResult` from src/types/index.ts.  The BPS fields are
produced by `Number(bigint / bigint)` in the engine and are therefore
integer-valued; they are modelled as `ℤ`. -/
structure SimulationResult where
  success : Bool
  outputAmount : ℤ
  actualProfit : ℤ
  actualProfitBPS : ℤ
  gasCost : ℤ
  flashloanFee : ℤ
  netProfit : ℤ
  netProfitBPS : ℤ
  deviations : List StateDeviation
  revertReason : Option String
deriving DecidableEq, Repr

/-- `ArbitrageOpportunity` from src/types/index.ts. -/
structure ArbitrageOpportunity where
  id : String
  type : OpportunityType
  createdAt : ℕ
  triggeringTx : Option PendingTx
  pools : List PoolState
  expectedProfitUSD : ℚ
  expectedProfitBPS : ℚ
  profitMargin : ℚ
  gasEstimate : ℤ
  flashloanRequired : Bool
  flashloanAmount : ℤ
  path : List String
  simulation : Option SimulationResult
  confidence : ℚ
deriving DecidableEq, Repr

/-- `ExecutionResult` from src/types/index.ts. -/
structure ExecutionResult where
  bundleHash : String
  submittedAt : ℕ
  includedInBlock : Option ℕ
  profitRealized : Option ℤ
  txHash : Option String
  status : String
  error : Option String
deriving DecidableEq, Repr

/-! ### Safety checker (src/safety/safetyChecker.ts) -/

/-- The per-check booleans of `SafetyCheckResult`. -/
structure SafetyChecks where
  simulationProfitable : Bool
  noNegativeExternalities : Bool
  noFrontrunning : Bool
  revertOnDeviation : Bool
  auditLogCreated : Bool
deriving DecidableEq, Repr

/-- `SafetyCheckResult` from src/safety/safetyChecker.ts. -/
structure SafetyCheckResult where
  passed : Bool
  checks : SafetyChecks
  failures : List String
  warnings : List String
deriving DecidableEq, Repr

/-- The pool summary stored in each audit entry's `data.pools`. -/
structure AuditPoolSummary where
  dex : String
  address : String
  token0 : String
  token1 : String
deriving DecidableEq, Repr

/-- The structured `data` payload of a safety-check audit entry. -/
structure AuditData where
  opportunityType : String
  expectedProfit : ℚ
  checks : SafetyChecks
  failures : List String
  pools : List AuditPoolSummary
deriving DecidableEq, Repr

/-- `AuditLog` from src/types/index.ts, specialised to the payload the
safety checker writes. -/
structure AuditLog where
  timestamp : ℕ
  type : String
  opportunityId : Option String
  data : AuditData
  severity : String
deriving DecidableEq, Repr

/-- The environment values `SafetyChecker` reads from `process.env`:
`MIN_PROFIT_BPS` (parseInt, default `'80'`),
`REVERT_ON_DEVIATION_SLIPPAGE_BPS` (`none` models an unset or empty
variable, otherwise the parsed integer) and `EXECUTOR_ADDRESS`
(default `''`). -/
structure SafetyConfig where
  minProfitBPS : ℤ
  revertOnDeviationSlippageBPS : Option ℤ
  executorAddress : String
deriving DecidableEq, Repr

/-- `SafetyChecker.checkSimulationProfitable`. -/
def checkSimulationProfitable (cfg : SafetyConfig) (simulation : SimulationResult) : Bool :=
  if !simulation.success then false
  else if simulation.netProfitBPS < cfg.minProfitBPS then false
  else if simulation.flashloanFee > 0 ∧
      simulation.actualProfit - simulation.gasCost - simulation.flashloanFee ≤ 0 then false
  else true

/-- Javascript `String.prototype.toLowerCase` (character-wise for the
ASCII hex addresses this code handles). -/
def strLower (s : String) : String := ⟨s.data.map Char.toLower⟩

/-- Lexicographic comparison of character lists, the order Javascript's
default `Array.prototype.sort` applies to strings (identical to
code-point order on the ASCII addresses handled here). -/
def charListLe : List Char → List Char → Bool
  | [], _ => true
  | _ :: _, [] => false
  | a :: as, b :: bs => if a < b then true else if b < a then false else charListLe as bs

/-- `a <= b` in the Javascript string order. -/
def strLe (a b : String) : Bool := charListLe a.data b.data

/-- `SafetyChecker.isTriggeredByOwnTransaction`.  The source returns
`true` when the sender matches the executor address, and also returns
`true` on the fall-through path ("Default to safe unless explicitly
conflicting"). -/
def isTriggeredByOwnTransaction (cfg : SafetyConfig) (tx : PendingTx) : Bool :=
  if strLower tx.fromAddr = strLower cfg.executorAddress then true
  else true

/-- The extreme reserve-ratio test inside
`SafetyChecker.checkNoNegativeExternalities` (the source computes
`Number(reserve0) / Number(reserve1)` in floating point; modelled
exactly in `ℚ`). -/
def reserveRatioExtreme (pool : PoolState) : Bool :=
  if pool.reserve0 > 0 ∧ pool.reserve1 > 0 then
    let ratio : ℚ := (pool.reserve0 : ℚ) / (pool.reserve1 : ℚ)
    if ratio > 100 ∨ ratio < 1 / 100 then true else false
  else false

/-- `SafetyChecker.checkNoNegativeExternalities`. -/
def checkNoNegativeExternalities (cfg : SafetyConfig) (opportunity : ArbitrageOpportunity) : Bool :=
  let triggerBad :=
    match opportunity.triggeringTx with
    | some tx => !(isTriggeredByOwnTransaction cfg tx)
    | none => false
  if triggerBad then false
  else if opportunity.pools.any reserveRatioExtreme then false
  else
    match opportunity.simulation with
    | some sim => !(sim.deviations.any fun d => decide (d.deviationBPS > 200))
    | none => true

/-- `SafetyChecker.checkNoFrontrunning` (`data.length / 2` is a
floating-point division in the source; modelled exactly in `ℚ`). -/
def checkNoFrontrunning (opportunity : ArbitrageOpportunity) : Bool :=
  match opportunity.triggeringTx with
  | some tx =>
    let callDataSize : ℚ := (tx.data.length : ℚ) / 2
    if callDataSize > 10000 then false else true
  | none => true

/-- `SafetyChecker.checkRevertOnDeviation`. -/
def checkRevertOnDeviation (cfg : SafetyConfig) : Bool :=
  match cfg.revertOnDeviationSlippageBPS with
  | none => false
  | some threshold => if threshold > 500 then false else true

/-- The audit entry built by `SafetyChecker.createAuditLog`. -/
def mkAuditLog (now : ℕ) (opportunity : ArbitrageOpportunity) (checks : SafetyChecks)
    (failures : List String) : AuditLog :=
  { timestamp := now
    type := "safety_check_failed"
    opportunityId := some opportunity.id
    data :=
      { opportunityType := opportunity.type.str
        expectedProfit := opportunity.expectedProfitBPS
        checks := checks
        failures := failures
        pools := opportunity.pools.map fun p =>
          { dex := p.dexType, address := p.address
            token0 := p.token0.symbol, token1 := p.token1.symbol } }
    severity := if failures.length > 0 then "warning" else "info" }

/-- `SafetyChecker.checkOpportunitySafety`.  `now` models `Date.now()`
and `auditLogs` the checker's accumulated in-memory audit state; both
flow only into the appended audit entry.  In this pure model
`createAuditLog` cannot throw, so it always succeeds, matching the
source where its `catch` is reachable only through an I/O exception. -/
def checkOpportunitySafety (cfg : SafetyConfig) (now : ℕ) (auditLogs : List AuditLog)
    (opportunity : ArbitrageOpportunity) : SafetyCheckResult × List AuditLog :=
  -- 1. Verify simulation profitability
  let step1 : Bool × List String :=
    match opportunity.simulation with
    | some sim =>
      if checkSimulationProfitable cfg sim then (true, [])
      else (false, ["Simulation shows no profit after gas costs"])
    | none => (false, ["Opportunity not simulated before safety check"])
  -- 2. Check for negative externalities
  let step2 : Bool × List String :=
    if checkNoNegativeExternalities cfg opportunity then (true, [])
    else (false, ["Opportunity may negatively impact other users"])
  -- 3. Check for frontrunning/sandwich risk
  let step3 : Bool × List String :=
    if checkNoFrontrunning opportunity then (true, [])
    else (false, ["Opportunity has frontrunning/sandwich attack characteristics"])
  -- 4. Verify revert-on-deviation capability: a failure is appended to
  -- the WARNINGS list, not to `failures`
  let step4 : Bool × List String :=
    if checkRevertOnDeviation cfg then (true, [])
    else (false, ["Revert-on-deviation safety check failed"])
  let failures := step1.2 ++ step2.2 ++ step3.2
  let warnings := step4.2
  -- 5. Create audit log entry (the snapshot stored in the entry still
  -- has `auditLogCreated := false`, as in the source)
  let checksSnapshot : SafetyChecks :=
    { simulationProfitable := step1.1
      noNegativeExternalities := step2.1
      noFrontrunning := step3.1
      revertOnDeviation := step4.1
      auditLogCreated := false }
  let entry := mkAuditLog now opportunity checksSnapshot failures
  let checks := { checksSnapshot with auditLogCreated := true }
  let passed := failures.isEmpty && checks.simulationProfitable
  ({ passed := passed, checks := checks, failures := failures, warnings := warnings },
    auditLogs ++ [entry])

/-! ### Pool analyzer (src/analyzers/poolAnalyzer.ts) -/

/-- Javascript truthiness of an optional `bigint` (`undefined` and `0n`
are the falsy cases). -/
def truthyInt : Option ℤ → Bool
  | none => false
  | some n => n != 0

/-- `pool.liquidity || BigInt(1)`. -/
def liquidityOrOne (pool : PoolState) : ℤ :=
  match pool.liquidity with
  | none => 1
  | some n => if n = 0 then 1 else n

/-- `PoolAnalyzer.calculateSpotPrice`. -/
def calculateSpotPrice (pool : PoolState) : ℚ :=
  if truthyInt pool.sqrtPriceX96 then
    -- Uniswap V3 / Algebra style
    ((pool.sqrtPriceX96.getD 0 : ℚ) ^ 2) / 2 ^ 192
  else
    -- Uniswap V2 style (use reserves)
    if pool.reserve0 = 0 then 0
    else (pool.reserve1 : ℚ) / (pool.reserve0 : ℚ)

/-- The unordered token-pair key
`[token0, token1].sort().join('-')` used to group pools. -/
def pairKey (pool : PoolState) : String :=
  let a := strLower pool.token0.address
  let b := strLower pool.token1.address
  if strLe a b then a ++ "-" ++ b else b ++ "-" ++ a

/-- Insert a pool into the grouped association list, preserving both the
key insertion order and the per-key pool insertion order (the iteration
order of a Javascript `Map`). -/
def insertGrouped (groups : List (String × List PoolState)) (key : String)
    (pool : PoolState) : List (String × List PoolState) :=
  match groups with
  | [] => [(key, [pool])]
  | (k, ps) :: rest =>
    if k = key then (k, ps ++ [pool]) :: rest
    else (k, ps) :: insertGrouped rest key pool

/-- The `pairMap` grouping loop of `PoolAnalyzer.detectCrossArbitrage`. -/
def groupByPair (pools : List PoolState) : List (String × List PoolState) :=
  pools.foldl (fun acc p => insertGrouped acc (pairKey p) p) []

/-- The comparator `(a, b) => a.price.comparedTo(b.price)` passed to the
Javascript sort (ascending by price). -/
def priceLe (a b : PoolState × ℚ) : Prop := a.2 ≤ b.2

instance : DecidableRel priceLe := fun a b => inferInstanceAs (Decidable (a.2 ≤ b.2))

instance : IsTotal (PoolState × ℚ) priceLe := ⟨fun a b => le_total a.2 b.2⟩

instance : IsTrans (PoolState × ℚ) priceLe := ⟨fun _ _ _ => le_trans⟩

instance : IsRefl (PoolState × ℚ) priceLe := ⟨fun a => le_refl a.2⟩

/-- The emission step of `PoolAnalyzer.detectCrossArbitrage` once the
lowest- and highest-priced entries of a pair group are known.  The
threshold test divides by the minimal spot price; `ℚ` division is total
(`x / 0 = 0`) whereas the source's Decimal division by a zero price
yields Infinity, so statements about emission are made only under a
positive-spot-price hypothesis, where the two semantics agree. -/
def mkCrossOpportunity (minProfitBPS : ℚ) (genId : String) (now : ℕ)
    (low high : PoolState × ℚ) : Option ArbitrageOpportunity :=
  let priceDiff := high.2 - low.2
  let profitBPS := priceDiff / low.2 * 10000
  -- Only flag if profitable after slippage and fees (add 1% = 100 BPS)
  if profitBPS > minProfitBPS + 100 then
    some
      { id := genId
        type := .crossDexArbitrage
        createdAt := now
        triggeringTx := none
        pools := [low.1, high.1]
        expectedProfitBPS := profitBPS - 100
        expectedProfitUSD := 0
        profitMargin := profitBPS / 10000 - 1 / 100
        gasEstimate := 150000
        flashloanRequired := false
        flashloanAmount := 0
        path := [low.1.token0.address, low.1.token1.address]
        simulation := none
        confidence := 7 / 10 }
  else none

/-- The body of `PoolAnalyzer.detectCrossArbitrage` for one pair group:
sort by spot price (the Javascript sort is stable; modelled by the
stable `List.insertionSort`), take the extremes, emit when the
divergence clears the threshold. -/
def processGroup (minProfitBPS : ℚ) (genId : String) (now : ℕ)
    (poolList : List PoolState) : Option ArbitrageOpportunity :=
  if poolList.length < 2 then none
  else
    let priceMap := poolList.map fun p => (p, calculateSpotPrice p)
    match List.insertionSort priceLe priceMap with
    | [] => none
    | low :: rest => mkCrossOpportunity minProfitBPS genId now low
        ((low :: rest).getLast (by simp))

/-- `PoolAnalyzer.detectCrossArbitrage`.  The `Date.now()` timestamp and
the random id are modelled as the parameters `now` and `genId`. -/
def detectCrossArbitrage (pools : List PoolState) (minProfitBPS : ℚ)
    (genId : String) (now : ℕ) : List ArbitrageOpportunity :=
  (groupByPair pools).filterMap fun g => processGroup minProfitBPS genId now g.2

/-- `PoolAnalyzer.estimateSwapSlippage`. -/
def estimateSwapSlippage (pool : PoolState) (tokenInAmount : ℤ) : ℚ :=
  if truthyInt pool.sqrtPriceX96 then
    -- V3 pools - simplified impact model
    let liquidity := liquidityOrOne pool
    let impact := (tokenInAmount : ℚ) / ((liquidity : ℚ) * 2)
    impact * 10000
  else
    -- V2 pools - use constant product formula
    let reserve0 : ℚ := (pool.reserve0 : ℚ)
    let amountIn : ℚ := (tokenInAmount : ℚ)
    let k := reserve0 * (pool.reserve1 : ℚ)
    let newReserve0 := reserve0 + amountIn
    let newReserve1 := k / newReserve0
    let amountOut := (pool.reserve1 : ℚ) - newReserve1
    let spotPrice := (pool.reserve1 : ℚ) / reserve0
    let effectivePrice := amountOut / amountIn
    (spotPrice - effectivePrice) / spotPrice * 10000

/-! ### Simulation engine (src/simulator/simulationEngine.ts) -/

/-- The transaction template built by
`SimulationEngine.buildArbitrageTransaction`. -/
structure TxRequest where
  toAddr : String
  value : String
  gasLimit : ℤ
  data : String
deriving DecidableEq, Repr

/-- Outcome of the Tenderly HTTP simulation call: the request itself can
fail (network, auth, malformed response), the simulated transaction can
revert, or it can succeed with a trace. -/
inductive TenderlyOutcome where
  | pathError
  | reverted (reason : Option String)
  | succeeded (gasUsed : ℤ) (gasPrice : ℤ) (output : ℤ)
deriving DecidableEq, Repr

/-- Environment of one `SimulationEngine.simulate` run: which providers
are configured and what each external call would return. -/
structure SimEnv where
  tenderlyConfigured : Bool
  tenderly : TenderlyOutcome
  anvilConfigured : Bool
  anvilCall : Except String ℤ
  anvilGasEstimate : ℤ
  anvilGasPrice : ℤ
deriving Repr

/-- The all-zero failure `SimulationResult` produced on a revert or in
the catch block of `SimulationEngine.simulate`. -/
def failedSimulation (reason : String) : SimulationResult :=
  { success := false
    outputAmount := 0
    actualProfit := 0
    actualProfitBPS := 0
    gasCost := 0
    flashloanFee := 0
    netProfit := 0
    netProfitBPS := 0
    deviations := []
    revertReason := some reason }

/-- The success-path profit arithmetic shared verbatim by
`simulateWithTenderly` and `simulateWithAnvil` (both compute the same
formulas from `outputAmount`, `pools[0].reserve0` and the gas cost). -/
def successSimulation (opportunity : ArbitrageOpportunity) (inputValue outputAmount gasCost : ℤ)
    (deviations : List StateDeviation) : SimulationResult :=
  let profit := if outputAmount > inputValue then outputAmount - inputValue else 0
  let profitBPS := if profit > 0 then profit * 10000 / inputValue else 0
  { success := true
    outputAmount := outputAmount
    actualProfit := profit
    actualProfitBPS := profitBPS
    gasCost := gasCost
    flashloanFee := if opportunity.flashloanRequired then opportunity.flashloanAmount / 1000 else 0
    netProfit := if profit > gasCost then profit - gasCost else 0
    netProfitBPS := profitBPS - gasCost * 10000 / inputValue
    deviations := deviations
    revertReason := none }

/-- `SimulationEngine.checkStateDeviations` (simplified implementation in
the source: always returns the empty list). -/
def checkStateDeviations (_opportunity : ArbitrageOpportunity) : List StateDeviation := []

/-- `SimulationEngine.buildArbitrageTransaction`.  Reading
`opportunity.pools[0].address` on an empty pool list raises a
`TypeError`, modelled as `Except.error`. -/
def buildArbitrageTransaction (opportunity : ArbitrageOpportunity) : Except String TxRequest :=
  match opportunity.pools with
  | [] => .error "Cannot read properties of undefined (reading address)"
  | p0 :: _ =>
    .ok { toAddr := p0.address, value := "0", gasLimit := opportunity.gasEstimate, data := "0x" }

/-- `SimulationEngine.simulateWithTenderly`.  Every exception inside it
(including the `BigInt` division by zero that the profit formulas hit
when `pools[0].reserve0 = 0`, and the property access on an empty pools
list) is caught locally and becomes `null`, i.e. `none`. -/
def simulateWithTenderly (env : SimEnv) (opportunity : ArbitrageOpportunity) :
    Option SimulationResult :=
  if !env.tenderlyConfigured then none
  else
    match env.tenderly with
    | .pathError => none
    | .reverted reason => some (failedSimulation (reason.getD "Unknown revert"))
    | .succeeded gasUsed gasPrice output =>
      match opportunity.pools with
      | [] => none
      | p0 :: _ =>
        if p0.reserve0 = 0 then none
        else some (successSimulation opportunity p0.reserve0 output (gasUsed * gasPrice) [])

/-- `SimulationEngine.simulateWithAnvil`.  Exceptions are not caught
here: they propagate to `simulate` (modelled as `Except.error`). -/
def simulateWithAnvil (env : SimEnv) (opportunity : ArbitrageOpportunity) :
    Except String SimulationResult :=
  if !env.anvilConfigured then .error "Anvil provider not initialized"
  else
    match env.anvilCall with
    | .error e => .error e
    | .ok output =>
      match opportunity.pools with
      | [] => .error "Cannot read properties of undefined (reading reserve0)"
      | p0 :: _ =>
        if p0.reserve0 = 0 then .error "Division by zero"
        else
          .ok (successSimulation opportunity p0.reserve0 output
            (env.anvilGasEstimate * env.anvilGasPrice) (checkStateDeviations opportunity))

/-- `SimulationEngine.simulate`: try Tenderly, fall back to Anvil, and
convert any escaped exception into the all-zero failure result in the
catch block. -/
def simulate (env : SimEnv) (opportunity : ArbitrageOpportunity) : SimulationResult :=
  let body : Except String SimulationResult :=
    match buildArbitrageTransaction opportunity with
    | .error e => .error e
    | .ok _arbTx =>
      match (if env.tenderlyConfigured then simulateWithTenderly env opportunity else none) with
      | some result => .ok result
      | none =>
        if env.anvilConfigured then simulateWithAnvil env opportunity
        else .error "No simulation provider available"
  match body with
  | .ok result => result
  | .error e => failedSimulation e

/-- `SimulationEngine.filterProfitable`.  `inputValue` is
`opp.pools[0].reserve0`; the degenerate empty-pools / zero-reserve cases
(where the Javascript `BigInt` arithmetic would throw) are not exercised
by any claim and are modelled with the total division of `ℤ`. -/
def filterProfitable (opportunities : List ArbitrageOpportunity)
    (minNetProfitBPS maxGasSpendBPS : ℤ) : List ArbitrageOpportunity :=
  opportunities.filter fun opp =>
    match opp.simulation with
    | none => false  -- Must have been simulated
    | some sim =>
      if sim.netProfitBPS < minNetProfitBPS then false
      else
        let inputValue := match opp.pools with | [] => 0 | p0 :: _ => p0.reserve0
        let gasBPS : ℤ := if sim.gasCost > 0 then sim.gasCost * 10000 / inputValue else 0
        if gasBPS > maxGasSpendBPS then false
        else if sim.deviations.any fun d => decide (d.deviationBPS > 200) then false
        else true

/-! ### Executor (src/executor/arbitrageExecutor.ts) -/

/-- Shallow embedding of the `ethers` ABI-encoded calldata built by the
executor's encode helpers: each encoder becomes one constructor carrying
the arguments it packs. -/
inductive CallData where
  | raw (hex : String)
  | swapCall (tokenIn tokenOut : String) (amountIn minAmountOut : ℤ) (recipient : String)
  | aaveFlashLoanSimple (receiver token : String) (amount : ℤ) (params : String)
  | balancerFlashLoan (recipient : String) (tokens : List String) (amounts : List ℤ)
      (userData : String)
  | erc3156FlashLoan (receiver token : String) (amount : ℤ) (data : String)
deriving DecidableEq, Repr

/-- The transaction request the executor builds (chainId 137). -/
structure ExecTxRequest where
  toAddr : String
  value : String
  gasLimit : ℤ
  data : CallData
  chainId : ℕ
deriving DecidableEq, Repr

/-- `FlashloanConfig` from src/executor/arbitrageExecutor.ts
(`provider` keeps the string tag `'aave' | 'balancer' | 'custom'`). -/
structure FlashloanConfig where
  provider : String
  address : String
  maxFeePercent : ℚ
deriving DecidableEq, Repr

/-- `ArbitrageExecutor` construction state: `wallet` is `some` exactly
when a private key was supplied and dry-run mode is off.
`executorAddress` models `process.env.EXECUTOR_ADDRESS` with its
zero-address fallback. -/
structure ExecutorConfig where
  dryRunMode : Bool
  wallet : Option String
  flashloanConfig : FlashloanConfig
  executorAddress : String
deriving DecidableEq, Repr

/-- Outcomes of the external effects of one `execute` call:
`send` is what `wallet.sendTransaction` would do (`ok` hash or thrown
error), `dryRunHash` the random hex the dry-run path fabricates. -/
structure ExecEnv where
  send : Except String String
  dryRunHash : String
deriving Repr

/-- `ArbitrageExecutor.encodeSwapCalldata`. -/
def encodeSwapCalldata (cfg : ExecutorConfig) (_poolAddress tokenIn tokenOut : String)
    (amountIn : ℤ) : CallData :=
  .swapCall tokenIn tokenOut amountIn 0 cfg.executorAddress

/-- `ArbitrageExecutor.encodeAaveFlashloan`. -/
def encodeAaveFlashloan (cfg : ExecutorConfig) (token : String) (amount : ℤ)
    (opportunityId : String) : CallData :=
  .aaveFlashLoanSimple cfg.executorAddress token amount opportunityId

/-- `ArbitrageExecutor.encodeBalancerFlashloan`. -/
def encodeBalancerFlashloan (cfg : ExecutorConfig) (tokens : List String) (amounts : List ℤ)
    (opportunityId : String) : CallData :=
  .balancerFlashLoan cfg.executorAddress tokens amounts opportunityId

/-- `ArbitrageExecutor.encodeCustomFlashloan` (ERC-3156). -/
def encodeCustomFlashloan (cfg : ExecutorConfig) (token : String) (amount : ℤ)
    (opportunityId : String) : CallData :=
  .erc3156FlashLoan cfg.executorAddress token amount opportunityId

/-- `ArbitrageExecutor.buildFlashloanTransaction`. -/
def buildFlashloanTransaction (cfg : ExecutorConfig) (opportunity : ArbitrageOpportunity) :
    Except String ExecTxRequest :=
  match opportunity.pools with
  | [] => .error "Cannot read properties of undefined (reading token0)"
  | p0 :: _ =>
    let token := p0.token0.address
    let amount := opportunity.flashloanAmount
    let calldataPath :=
      if cfg.flashloanConfig.provider = "aave" then
        encodeAaveFlashloan cfg token amount opportunity.id
      else if cfg.flashloanConfig.provider = "balancer" then
        encodeBalancerFlashloan cfg [token] [amount] opportunity.id
      else
        encodeCustomFlashloan cfg token amount opportunity.id
    .ok { toAddr := cfg.flashloanConfig.address, value := "0",
          gasLimit := opportunity.gasEstimate, data := calldataPath, chainId := 137 }

/-- `ArbitrageExecutor.buildCrossArbitrageTransaction`. -/
def buildCrossArbitrageTransaction (cfg : ExecutorConfig) (opportunity : ArbitrageOpportunity) :
    Except String ExecTxRequest :=
  match opportunity.pools with
  | [] => .error "Cannot read properties of undefined (reading address)"
  | cheapPool :: _ =>
    let swapData := encodeSwapCalldata cfg cheapPool.address cheapPool.token0.address
      cheapPool.token1.address cheapPool.reserve0
    .ok { toAddr := cheapPool.address, value := "0",
          gasLimit := opportunity.gasEstimate, data := swapData, chainId := 137 }

/-- `ArbitrageExecutor.buildTWAPArbitrageTransaction`. -/
def buildTWAPArbitrageTransaction (cfg : ExecutorConfig) (opportunity : ArbitrageOpportunity) :
    Except String ExecTxRequest :=
  if !opportunity.flashloanRequired then .error "TWAP arbitrage requires flashloan"
  else buildFlashloanTransaction cfg opportunity

/-- `ArbitrageExecutor.buildTriangleCycleTransaction`. -/
def buildTriangleCycleTransaction (opportunity : ArbitrageOpportunity) :
    Except String ExecTxRequest :=
  match opportunity.pools with
  | [] => .error "Cannot read properties of undefined (reading address)"
  | p0 :: _ =>
    .ok { toAddr := p0.address, value := "0",
          gasLimit := (opportunity.path.length : ℤ) * 150000,
          data := .raw "0x", chainId := 137 }

/-- `ArbitrageExecutor.buildJitLiquidityTransaction`. -/
def buildJitLiquidityTransaction (opportunity : ArbitrageOpportunity) :
    Except String ExecTxRequest :=
  match opportunity.pools with
  | [] => .error "Cannot read properties of undefined (reading address)"
  | p0 :: _ =>
    .ok { toAddr := p0.address, value := "0", gasLimit := 300000,
          data := .raw "0x", chainId := 137 }

/-- `ArbitrageExecutor.buildTransaction` (the `default` branch of the
source throws for the remaining enum member). -/
def buildTransaction (cfg : ExecutorConfig) (opportunity : ArbitrageOpportunity) :
    Except String ExecTxRequest :=
  match opportunity.type with
  | .crossDexArbitrage => buildCrossArbitrageTransaction cfg opportunity
  | .twapArbitrage => buildTWAPArbitrageTransaction cfg opportunity
  | .triangleCycle => buildTriangleCycleTransaction opportunity
  | .jitLiquidity => buildJitLiquidityTransaction opportunity
  | .statisticalArbitrage =>
    .error ("Unsupported opportunity type: " ++ OpportunityType.statisticalArbitrage.str)

/-- `ArbitrageExecutor.addSafetyParameters` (120% gas-limit buffer). -/
def addSafetyParameters (tx : ExecTxRequest) : ExecTxRequest :=
  { tx with gasLimit := tx.gasLimit * 120 / 100 }

/-- `ArbitrageExecutor.simulateExecute` (dry-run path; the random
synthetic hash is the environment's `dryRunHash`). -/
def simulateExecute (env : ExecEnv) (now : ℕ) (_opportunity : ArbitrageOpportunity) :
    ExecutionResult :=
  { bundleHash := env.dryRunHash
    submittedAt := now
    includedInBlock := none
    profitRealized := none
    txHash := none
    status := "submitted"
    error := none }

/-- The `try`-block body of `ArbitrageExecutor.execute` in live mode:
each `throw` becomes `Except.error`. -/
def executeLiveAttempt (cfg : ExecutorConfig) (env : ExecEnv) (now : ℕ)
    (opportunity : ArbitrageOpportunity) : Except String ExecutionResult :=
  -- Verify opportunity is still profitable
  match opportunity.simulation with
  | none => .error "Opportunity no longer profitable"
  | some sim =>
    if sim.netProfitBPS < 50 then .error "Opportunity no longer profitable"
    else
      match buildTransaction cfg opportunity with
      | .error e => .error e
      | .ok tx =>
        let _safetyTx := addSafetyParameters tx
        match env.send with
        | .error e => .error e
        | .ok hash =>
          .ok { bundleHash := hash
                submittedAt := now
                includedInBlock := none
                profitRealized := none
                txHash := none
                status := "submitted"
                error := none }

/-- `ArbitrageExecutor.execute`.  The result type `Except String
ExecutionResult` distinguishes a returned result (`ok`) from an
exception escaping to the caller (`error`): the `Wallet not configured`
throw sits OUTSIDE the `try` block and therefore escapes, while every
exception inside the `try` is converted into a `failed` result. -/
def execute (cfg : ExecutorConfig) (env : ExecEnv) (now : ℕ)
    (opportunity : ArbitrageOpportunity) : Except String ExecutionResult :=
  if cfg.dryRunMode then .ok (simulateExecute env now opportunity)
  else
    match cfg.wallet with
    | none => .error "Wallet not configured for execution"
    | some _ =>
      match executeLiveAttempt cfg env now opportunity with
      | .ok result => .ok result
      | .error e =>
        .ok { bundleHash := ""
              submittedAt := now
              includedInBlock := none
              profitRealized := none
              txHash := none
              status := "failed"
              error := some e }

/-! ### Transaction listener (src/listeners/transactionListener.ts) -/

/-- The mutable reconnection state of `TransactionListener`. -/
structure ListenerState where
  reconnectAttempts : ℕ
deriving DecidableEq, Repr

/-- `maxReconnectAttempts = 5`. -/
def maxReconnectAttempts : ℕ := 5

/-- `reconnectDelay = 1000` ms. -/
def reconnectDelay : ℕ := 1000

/-- What one call of `TransactionListener.attemptReconnect` does to the
outside world: `scheduled` is the delay of the `setTimeout(start, delay)`
it installs (`none` when it gives up), and `emitted` the events it
delivers through the `EventEmitter` to the orchestrator.  The source
emits nothing from this method — on exhaustion it only writes
`logger.error('Max reconnection attempts reached')`. -/
structure ReconnectAction where
  scheduled : Option ℕ
  emitted : List String
deriving DecidableEq, Repr

/-- `TransactionListener.attemptReconnect`. -/
def attemptReconnect (st : ListenerState) : ListenerState × ReconnectAction :=
  if st.reconnectAttempts ≥ maxReconnectAttempts then
    (st, { scheduled := none, emitted := [] })
  else
    let n := st.reconnectAttempts + 1
    ({ reconnectAttempts := n },
      { scheduled := some (reconnectDelay * 2 ^ (n - 1)), emitted := [] })

/-- The actions taken across `k` consecutive disconnects (each scheduled
reconnect fails again, so the `close` handler fires `attemptReconnect`
once per disconnect; the `open` handler that would reset the counter
never runs). -/
def disconnectTrace : ℕ → ListenerState → List ReconnectAction
  | 0, _ => []
  | k + 1, st =>
    let (st', a) := attemptReconnect st
    a :: disconnectTrace k st'

/-! ### Calldata decoder (src/decoders/calldataDecoder.ts) -/

/-- `DecodedCall` from src/decoders/calldataDecoder.ts (`args` is the
Javascript object in insertion order; `type` keeps the string union). -/
structure DecodedCall where
  toAddr : String
  function : String
  args : List (String × String)
  type : String
deriving DecidableEq, Repr

/-- The `FUNCTION_SIGNATURES` table (selector, name, type). -/
def FUNCTION_SIGNATURES : List (String × String × String) :=
  [ ("0x38ed1739", "swapExactTokensForTokens", "swap")
  , ("0x8803dbee", "swapTokensForExactTokens", "swap")
  , ("0x1f00ca16", "exactInputSingle", "swap")
  , ("0x414bf389", "exactOutputSingle", "swap")
  , ("0xc04b8d59", "swap", "swap")
  , ("0x00878796", "swap", "swap")
  , ("0xe8e33700", "addLiquidity", "liquidity")
  , ("0x5b0d5984", "addLiquidityETH", "liquidity")
  , ("0x83800a8e", "addLiquidityOneToken", "liquidity")
  , ("0x2e1a7d4d", "withdraw", "liquidity")
  , ("0x5b8c41e6", "mint", "liquidity")
  , ("0x0c49ccbe", "decreaseLiquidity", "liquidity")
  , ("0xab9c4b5d", "flashLoan", "flash_loan")
  , ("0x23e30c8b", "flashLoan", "flash_loan")
  , ("0xd14d7cc1", "flashLoan", "flash_loan") ]

/-- `FUNCTION_SIGNATURES[selector]` record lookup. -/
def lookupSignature (selector : String) : Option (String × String) :=
  (FUNCTION_SIGNATURES.find? fun e => e.1 = selector).map fun e => e.2

/-- `getFunctionSelector`. -/
def getFunctionSelector (data : String) : String :=
  if data.length < 10 then "" else data.take 10

/-- `0x${params.slice(a, b)}`. -/
def hexSlice (params : String) (a b : ℕ) : String :=
  "0x" ++ (params.drop a).take (b - a)

/-- `decodeParameters`.  The generic branch iterates
`i < Math.min(params.length / 64, 10)` with a floating-point bound,
i.e. `min ⌈length/64⌉ 10` integer iterations. -/
def decodeParameters (selector : String) (data : String) : List (String × String) :=
  let params := data.drop 10
  if selector = "0x38ed1739" then
    [ ("amountIn", hexSlice params 0 64)
    , ("amountOutMin", hexSlice params 64 128)
    , ("path_offset", hexSlice params 128 192)
    , ("to", hexSlice params (192 + 24) (192 + 64))
    , ("deadline", hexSlice params (192 + 64) (192 + 128)) ]
  else if selector = "0x1f00ca16" then
    [ ("tokenIn", hexSlice params 24 64)
    , ("tokenOut", hexSlice params 88 128)
    , ("fee", hexSlice params 128 192)
    , ("recipient", hexSlice params 216 256)
    , ("deadline", hexSlice params 256 320)
    , ("amountIn", hexSlice params 320 384)
    , ("amountOutMinimum", hexSlice params 384 448) ]
  else if selector = "0xc04b8d59" then
    [ ("poolId", hexSlice params 0 64)
    , ("tokenIn", hexSlice params (64 + 24) (128 + 24))
    , ("tokenOut", hexSlice params (128 + 24) (192 + 24))
    , ("amount", hexSlice params 192 256) ]
  else if selector = "0x5b0d5984" then
    [ ("token", hexSlice params 24 64)
    , ("amountTokenDesired", hexSlice params 64 128)
    , ("amountTokenMin", hexSlice params 128 192)
    , ("amountETHMin", hexSlice params 192 256)
    , ("to", hexSlice params (256 + 24) (320 + 24))
    , ("deadline", hexSlice params 320 384) ]
  else if selector = "0xab9c4b5d" ∨ selector = "0x23e30c8b" then
    [ ("receiver", hexSlice params 24 64)
    , ("token", hexSlice params (64 + 24) (128 + 24))
    , ("amount", hexSlice params 128 192) ]
  else if selector = "0xd14d7cc1" then
    [ ("receiver", hexSlice params 24 64)
    , ("tokens_offset", hexSlice params 64 128)
    , ("amounts_offset", hexSlice params 128 192) ]
  else
    (List.range (min ((params.length + 63) / 64) 10)).map fun i =>
      ("param" ++ toString i, hexSlice params (i * 64) ((i + 1) * 64))

/-- `decodeCalldata`.  `none` models the `return null` of the catch
block; the body itself never throws, so the function in fact always
returns `some`. -/
def decodeCalldata (toAddr : String) (data : String) : Option DecodedCall :=
  let selector := getFunctionSelector data
  match lookupSignature selector with
  | none =>
    some { toAddr := toAddr, function := "unknown", args := [], type := "unknown" }
  | some signature =>
    some { toAddr := toAddr, function := signature.1,
           args := decodeParameters selector data, type := signature.2 }

/-! ### Concrete fixtures used by witnesses and counterexamples -/

def tokenA : Token :=
  { address := "0xtoken0", symbol := "USDC", decimals := 6, priceUSD := none }

def tokenB : Token :=
  { address := "0xtoken1", symbol := "WETH", decimals := 18, priceUSD := none }

/-- A constant-product pool fixture on the `tokenA`/`tokenB` pair. -/
def mkV2Pool (addr : String) (r0 r1 : ℤ) : PoolState :=
  { dexType := "quickswap", address := addr, token0 := tokenA, token1 := tokenB
    reserve0 := r0, reserve1 := r1, fee := some 3000, liquidity := none
    sqrtPriceX96 := none, currentTick := none, twapPrice := none, timestamp := 0 }

/-- Reserves `[1000, 2000]` (spot price 2.0). -/
def poolHigh : PoolState := mkV2Pool "0xpoola" 1000 2000

/-- Reserves `[1000, 1600]` (spot price 1.6). -/
def poolLow : PoolState := mkV2Pool "0xpoolb" 1000 1600

/-- A successful simulation comfortably above every profit floor. -/
def okSimulation : SimulationResult :=
  { success := true, outputAmount := 1100, actualProfit := 100, actualProfitBPS := 1000
    gasCost := 5, flashloanFee := 0, netProfit := 95, netProfitBPS := 950
    deviations := [], revertReason := none }

/-- An opportunity that passes every safety check other than (possibly)
the deviation-guard configuration check. -/
def baseOpportunity : ArbitrageOpportunity :=
  { id := "arb-1", type := .crossDexArbitrage, createdAt := 0, triggeringTx := none
    pools := [poolHigh, poolLow]
    expectedProfitUSD := 0, expectedProfitBPS := 2400, profitMargin := 6 / 25
    gasEstimate := 150000, flashloanRequired := false, flashloanAmount := 0
    path := ["0xtoken0", "0xtoken1"], simulation := some okSimulation, confidence := 7 / 10 }

/-- Config with `REVERT_ON_DEVIATION_SLIPPAGE_BPS = 600` (> 500). -/
def cfg600 : SafetyConfig :=
  { minProfitBPS := 80, revertOnDeviationSlippageBPS := some 600, executorAddress := "0xexec" }

/-- `baseOpportunity` with no attached simulation. -/
def unsimulatedOpportunity : ArbitrageOpportunity :=
  { baseOpportunity with simulation := none, id := "arb-2" }

/-- A pending transaction whose sender is NOT the configured executor. -/
def thirdPartyTx : PendingTx :=
  { hash := "0xhash", fromAddr := "0xother", toAddr := some "0xpoola", value := "0"
    data := "0x38ed1739", gasPrice := "1", gasLimit := "21000", nonce := 0, timestamp := 0
    source := "bloxroute" }

/-- `baseOpportunity` triggered by the third-party transaction. -/
def thirdPartyOpportunity : ArbitrageOpportunity :=
  { baseOpportunity with triggeringTx := some thirdPartyTx, id := "arb-3" }

/-- A pool whose reserve ratio 20000:100 = 200:1 is extreme. -/
def extremePool : PoolState := mkV2Pool "0xpoolc" 20000 100

/-- An opportunity over the extreme pool. -/
def extremeOpportunity : ArbitrageOpportunity :=
  { baseOpportunity with pools := [extremePool], id := "arb-4" }

/-- Environment where the Tenderly simulation reverts. -/
def revertEnv : SimEnv :=
  { tenderlyConfigured := true, tenderly := .reverted (some "execution reverted")
    anvilConfigured := false, anvilCall := .error "unused"
    anvilGasEstimate := 0, anvilGasPrice := 0 }

/-- Live-mode executor configuration WITHOUT a wallet (constructed with
`dryRunMode = false` but no private key). -/
def cfgLiveNoWallet : ExecutorConfig :=
  { dryRunMode := false, wallet := none
    flashloanConfig := { provider := "aave", address := "0xaave", maxFeePercent := 1 / 20 }
    executorAddress := "0xexec" }

/-- Live-mode executor configuration with a wallet. -/
def cfgLiveWallet : ExecutorConfig := { cfgLiveNoWallet with wallet := some "0xexec" }

/-- Environment where `sendTransaction` throws. -/
def sendFailEnv : ExecEnv := { send := .error "insufficient funds", dryRunHash := "0xsynthetic" }

/-- The opportunity Scenario 1 expects: the detector applied to the
`[1000, 2000]` and `[1000, 1600]` pools with `minProfitBPS = 80` emits
exactly this (pools ordered cheap then expensive, raw divergence
2500 BPS minus the fixed 100 BPS buffer). -/
def scenario1Opportunity : ArbitrageOpportunity :=
  { id := "arb-1", type := .crossDexArbitrage, createdAt := 0, triggeringTx := none
    pools := [poolLow, poolHigh]
    expectedProfitUSD := 0, expectedProfitBPS := 2400, profitMargin := 6 / 25
    gasEstimate := 150000, flashloanRequired := false, flashloanAmount := 0
    path := ["0xtoken0", "0xtoken1"], simulation := none, confidence := 7 / 10 }

/-! ## Theorems -/

/-- Claim C9: re-running the Safety Validator on the same opportunity
under the same configuration yields the same `SafetyCheckResult`,
whatever the wall-clock time and accumulated audit state are: the
result depends only on the opportunity and the configuration. -/
theorem safety_check_result_deterministic (cfg : SafetyConfig)
    (opportunity : ArbitrageOpportunity) (t1 t2 : ℕ) (s1 s2 : List AuditLog) :
    (checkOpportunitySafety cfg t1 s1 opportunity).1 =
      (checkOpportunitySafety cfg t2 s2 opportunity).1 := rfl

/-- Claim C1 (counterexample): with the deviation-guard threshold
configured as 600 (> 500 BPS) and every other check passing, the
overall result still has `passed = true` and an empty failures list —
the check's failure lands in `warnings`, so the claimed overall failure
does not happen. -/
theorem high_deviation_threshold_does_not_fail_overall :
    (checkOpportunitySafety cfg600 0 [] baseOpportunity).1.passed = true ∧
    (checkOpportunitySafety cfg600 0 [] baseOpportunity).1.failures = [] ∧
    (checkOpportunitySafety cfg600 0 [] baseOpportunity).1.checks.revertOnDeviation = false := by
  norm_num [checkOpportunitySafety, checkSimulationProfitable, checkNoNegativeExternalities,
    checkNoFrontrunning, checkRevertOnDeviation, reserveRatioExtreme, cfg600, baseOpportunity,
    okSimulation, poolHigh, poolLow, mkV2Pool]

/-- Claim C1 (amended): when the configured deviation-guard threshold
exceeds 500 BPS, `checks.revertOnDeviation` is `false` and the
revert-on-deviation message is recorded in `warnings`; the overall
`passed` flag and the `failures` list are exactly those obtained under
a valid threshold, i.e. the deviation-guard check never contributes a
failure. -/
theorem high_deviation_threshold_yields_warning_only (cfg : SafetyConfig) (t : ℤ)
    (ht : cfg.revertOnDeviationSlippageBPS = some t) (h500 : 500 < t)
    (now : ℕ) (logs : List AuditLog) (opportunity : ArbitrageOpportunity) :
    (checkOpportunitySafety cfg now logs opportunity).1.checks.revertOnDeviation = false ∧
    (checkOpportunitySafety cfg now logs opportunity).1.warnings =
      ["Revert-on-deviation safety check failed"] ∧
    (checkOpportunitySafety cfg now logs opportunity).1.passed =
      (checkOpportunitySafety { cfg with revertOnDeviationSlippageBPS := some 50 }
        now logs opportunity).1.passed ∧
    (checkOpportunitySafety cfg now logs opportunity).1.failures =
      (checkOpportunitySafety { cfg with revertOnDeviationSlippageBPS := some 50 }
        now logs opportunity).1.failures := by
  have hrod : checkRevertOnDeviation cfg = false := by
    unfold checkRevertOnDeviation
    rw [ht]
    simp [h500]
  refine ⟨?_, ?_, ?_, ?_⟩ <;>
    simp [checkOpportunitySafety, hrod, checkSimulationProfitable,
      checkNoNegativeExternalities, checkNoFrontrunning, isTriggeredByOwnTransaction]

/-- Claim C1 (witness for the amended theorem at threshold 600). -/
theorem high_deviation_threshold_yields_warning_only_witness :
    (checkOpportunitySafety cfg600 0 [] baseOpportunity).1.checks.revertOnDeviation = false ∧
    (checkOpportunitySafety cfg600 0 [] baseOpportunity).1.warnings =
      ["Revert-on-deviation safety check failed"] ∧
    (checkOpportunitySafety cfg600 0 [] baseOpportunity).1.passed =
      (checkOpportunitySafety { cfg600 with revertOnDeviationSlippageBPS := some 50 }
        0 [] baseOpportunity).1.passed ∧
    (checkOpportunitySafety cfg600 0 [] baseOpportunity).1.failures =
      (checkOpportunitySafety { cfg600 with revertOnDeviationSlippageBPS := some 50 }
        0 [] baseOpportunity).1.failures :=
  high_deviation_threshold_yields_warning_only cfg600 600 rfl (by norm_num) 0 []
    baseOpportunity

/-- Claim C2: an opportunity with no attached simulation is always
dropped by `filterProfitable` (whatever the thresholds) and always
fails the simulation-profitability safety check with the not-simulated
failure message, making the overall result fail. -/
theorem unsimulated_opportunity_always_rejected :
    (∀ (opps : List ArbitrageOpportunity) (minN maxG : ℤ) (opp : ArbitrageOpportunity),
      opp.simulation = none → opp ∉ filterProfitable opps minN maxG) ∧
    (∀ (cfg : SafetyConfig) (now : ℕ) (logs : List AuditLog) (opp : ArbitrageOpportunity),
      opp.simulation = none →
        (checkOpportunitySafety cfg now logs opp).1.checks.simulationProfitable = false ∧
        "Opportunity not simulated before safety check" ∈
          (checkOpportunitySafety cfg now logs opp).1.failures ∧
        (checkOpportunitySafety cfg now logs opp).1.passed = false) := by
  constructor
  · intro opps minN maxG opp hnone hmem
    rcases List.mem_filter.mp hmem with ⟨-, hpred⟩
    simp [hnone] at hpred
  · intro cfg now logs opp hnone
    refine ⟨?_, ?_, ?_⟩ <;> simp [checkOpportunitySafety, hnone]

/-- Claim C2 (witness at a concrete unsimulated opportunity). -/
theorem unsimulated_opportunity_always_rejected_witness :
    unsimulatedOpportunity ∉ filterProfitable [unsimulatedOpportunity] 0 10000 ∧
    (checkOpportunitySafety cfg600 0 [] unsimulatedOpportunity).1.checks.simulationProfitable
      = false ∧
    "Opportunity not simulated before safety check" ∈
      (checkOpportunitySafety cfg600 0 [] unsimulatedOpportunity).1.failures ∧
    (checkOpportunitySafety cfg600 0 [] unsimulatedOpportunity).1.passed = false :=
  ⟨unsimulated_opportunity_always_rejected.1 [unsimulatedOpportunity] 0 10000
      unsimulatedOpportunity rfl,
    unsimulated_opportunity_always_rejected.2 cfg600 0 [] unsimulatedOpportunity rfl⟩

/-- Claim C4 (counterexample): an opportunity triggered by a transaction
whose sender `0xother` differs from the configured executor address
`0xexec` still PASSES the no-negative-externality check, and the
externality failure message is absent from the failures — the check
does not fail on the third-party-trigger ground as claimed. -/
theorem third_party_trigger_passes_externality_check :
    thirdPartyTx.fromAddr ≠ cfg600.executorAddress ∧
    checkNoNegativeExternalities cfg600 thirdPartyOpportunity = true ∧
    "Opportunity may negatively impact other users" ∉
      (checkOpportunitySafety cfg600 0 [] thirdPartyOpportunity).1.failures := by
  have hlen : ("0x38ed1739" : String).length = 10 := rfl
  refine ⟨by decide, ?_, ?_⟩ <;>
    norm_num [hlen, checkOpportunitySafety, checkNoNegativeExternalities,
      checkSimulationProfitable,
      checkNoFrontrunning, checkRevertOnDeviation, isTriggeredByOwnTransaction,
      reserveRatioExtreme, cfg600, thirdPartyOpportunity, thirdPartyTx, baseOpportunity,
      okSimulation, poolHigh, poolLow, mkV2Pool]

/-- Claim C4 (amended): `isTriggeredByOwnTransaction` returns `true` for
every transaction (the third-party branch defaults to safe), so the
no-negative-externality check can only fail because of an extreme
reserve ratio or a state deviation above 200 BPS — never because of the
triggering transaction's sender. -/
theorem externality_check_ignores_triggering_tx (cfg : SafetyConfig) (tx : PendingTx)
    (opportunity : ArbitrageOpportunity) :
    isTriggeredByOwnTransaction cfg tx = true ∧
    (checkNoNegativeExternalities cfg opportunity = false →
      (∃ p ∈ opportunity.pools, reserveRatioExtreme p = true) ∨
      (∃ sim, opportunity.simulation = some sim ∧
        ∃ d ∈ sim.deviations, d.deviationBPS > 200)) := by
  refine ⟨by simp [isTriggeredByOwnTransaction], fun h => ?_⟩
  by_cases hp : opportunity.pools.any reserveRatioExtreme
  · left
    simpa [List.any_eq_true] using hp
  · right
    rcases htx : opportunity.triggeringTx with _ | tx0 <;>
      rcases hsim : opportunity.simulation with _ | sim <;>
      simp [checkNoNegativeExternalities, isTriggeredByOwnTransaction, htx, hsim, hp] at h
    all_goals exact ⟨sim, rfl, by simpa [List.any_eq_true] using h⟩

/-- Claim C4 (witness: the amended theorem applied to an opportunity
whose check fails because of an extreme reserve ratio). -/
theorem externality_check_ignores_triggering_tx_witness :
    (∃ p ∈ extremeOpportunity.pools, reserveRatioExtreme p = true) ∨
    (∃ sim, extremeOpportunity.simulation = some sim ∧
      ∃ d ∈ sim.deviations, d.deviationBPS > 200) :=
  (externality_check_ignores_triggering_tx cfg600 thirdPartyTx extremeOpportunity).2
    (by norm_num [checkNoNegativeExternalities, isTriggeredByOwnTransaction,
      reserveRatioExtreme, extremeOpportunity, extremePool, baseOpportunity, okSimulation,
      mkV2Pool])

/-- Claim C7 (counterexample): once the five reconnect attempts are
exhausted, the next disconnect handling schedules no further reconnect
AND emits no event whatsoever — the source only writes a log line — so
no fatal condition is signalled to the orchestrator, contrary to the
claim. -/
theorem reconnect_exhaustion_emits_no_event :
    (attemptReconnect { reconnectAttempts := 5 }).2.emitted = [] ∧
    (attemptReconnect { reconnectAttempts := 5 }).2.scheduled = none := by
  decide

/-- Claim C7 (amended): six consecutive disconnects produce exactly five
reconnect attempts with strictly increasing, per-attempt doubling
delays (1000, 2000, 4000, 8000, 16000 ms); the sixth disconnect
schedules nothing — the listener stops attempting — but all the
listener does at that point is log an error: no event is emitted to the
orchestrator at any step, so no fatal condition is surfaced. -/
theorem reconnect_five_attempts_doubling_then_silent_stop :
    (disconnectTrace 6 { reconnectAttempts := 0 }).map (fun a => a.scheduled) =
      [some 1000, some 2000, some 4000, some 8000, some 16000, none] ∧
    (disconnectTrace 6 { reconnectAttempts := 0 }).map (fun a => a.emitted) =
      [[], [], [], [], [], []] := by
  decide

/-- Claim C10: `decodeCalldata` always returns a `DecodedCall` (never
`null`, never an exception); for calldata shorter than 10 characters,
or a selector absent from the signature table, the result is the
`unknown`/`unknown` fallback with empty args. -/
theorem decodeCalldata_total_unknown_fallback (toAddr data : String) :
    (decodeCalldata toAddr data).isSome = true ∧
    (data.length < 10 →
      decodeCalldata toAddr data =
        some { toAddr := toAddr, function := "unknown", args := [], type := "unknown" }) ∧
    (lookupSignature (getFunctionSelector data) = none →
      decodeCalldata toAddr data =
        some { toAddr := toAddr, function := "unknown", args := [], type := "unknown" }) := by
  refine ⟨?_, ?_, ?_⟩
  · unfold decodeCalldata
    rcases h : lookupSignature (getFunctionSelector data) with _ | sig <;> simp [h]
  · intro hshort
    have hsel : getFunctionSelector data = "" := by
      simp [getFunctionSelector, hshort]
    have hnone : lookupSignature "" = none := by decide
    simp [decodeCalldata, hsel, hnone]
  · intro hnone
    simp [decodeCalldata, hnone]

/-- Claim C10 (witness: two-byte calldata takes the unknown fallback). -/
theorem decodeCalldata_total_unknown_fallback_witness :
    decodeCalldata "0xrouter" "0x00" =
      some { toAddr := "0xrouter", function := "unknown", args := [], type := "unknown" } :=
  (decodeCalldata_total_unknown_fallback "0xrouter" "0x00").2.1 (by decide)

/-- Any result `simulateWithTenderly` actually returns is either the
all-zero failure result of a revert or a success result. -/
lemma simulateWithTenderly_shape (env : SimEnv) (opportunity : ArbitrageOpportunity)
    (r : SimulationResult) (h : simulateWithTenderly env opportunity = some r) :
    (∃ e, r = failedSimulation e) ∨ r.success = true := by
  unfold simulateWithTenderly at h
  rcases henv : env.tenderlyConfigured <;> rw [henv] at h
  · simp at h
  · rcases hout : env.tenderly with _ | reason | ⟨g, gp, out⟩ <;> rw [hout] at h
    · simp at h
    · simp at h
      exact Or.inl ⟨_, h.symm⟩
    · rcases hpools : opportunity.pools with _ | ⟨p0, rest⟩ <;> rw [hpools] at h
      · simp at h
      · by_cases hz : p0.reserve0 = 0
        · simp [hz] at h
        · simp [hz] at h
          exact Or.inr (by rw [← h]; rfl)

/-- Any result `simulateWithAnvil` returns without throwing is a success
result. -/
lemma simulateWithAnvil_shape (env : SimEnv) (opportunity : ArbitrageOpportunity)
    (r : SimulationResult) (h : simulateWithAnvil env opportunity = .ok r) :
    r.success = true := by
  unfold simulateWithAnvil at h
  rcases henv : env.anvilConfigured <;> rw [henv] at h
  · simp at h
  · rcases hcall : env.anvilCall with e | out <;> rw [hcall] at h
    · simp at h
    · rcases hpools : opportunity.pools with _ | ⟨p0, rest⟩ <;> rw [hpools] at h
      · simp at h
      · by_cases hz : p0.reserve0 = 0
        · simp [hz] at h
        · simp [hz] at h
          rw [← h]
          rfl

/-- `simulate` returns either an all-zero failure result (carrying the
caught exception's message or the revert reason) or a success result. -/
lemma simulate_cases (env : SimEnv) (opportunity : ArbitrageOpportunity) :
    (∃ e, simulate env opportunity = failedSimulation e) ∨
      (simulate env opportunity).success = true := by
  unfold simulate
  rcases hb : buildArbitrageTransaction opportunity with e | tx <;> simp only [hb]
  · exact Or.inl ⟨e, rfl⟩
  · rcases hT : (if env.tenderlyConfigured then simulateWithTenderly env opportunity else none)
      with _ | r <;> simp only [hT]
    · rcases henv : env.anvilConfigured <;> simp only [henv, Bool.false_eq_true,
        if_false, if_true]
      · exact Or.inl ⟨_, rfl⟩
      · rcases hA : simulateWithAnvil env opportunity with e | r <;> simp only [hA]
        · exact Or.inl ⟨e, rfl⟩
        · exact Or.inr (simulateWithAnvil_shape env opportunity r hA)
    · have hr : simulateWithTenderly env opportunity = some r := by
        rcases henv : env.tenderlyConfigured <;> rw [henv] at hT
        · simp at hT
        · simpa using hT
      rcases simulateWithTenderly_shape env opportunity r hr with ⟨e, he⟩ | hsucc
      · exact Or.inl ⟨e, by rw [he]⟩
      · exact Or.inr hsucc

/-- Claim C5: `simulate` always returns a `SimulationResult` (it is a
total function of the call outcomes, never letting an exception
escape); whenever the result is a failure, its revert reason is
populated and every profit/gas field is zero; and the result IS a
failure whenever the Tenderly simulation reverts, or the Tenderly path
yields nothing while the Anvil path is missing or throws. -/
theorem simulate_total_failure_shape (env : SimEnv) (opportunity : ArbitrageOpportunity) :
    ((simulate env opportunity).success = false →
      (simulate env opportunity).outputAmount = 0 ∧
      (simulate env opportunity).actualProfit = 0 ∧
      (simulate env opportunity).actualProfitBPS = 0 ∧
      (simulate env opportunity).gasCost = 0 ∧
      (simulate env opportunity).flashloanFee = 0 ∧
      (simulate env opportunity).netProfit = 0 ∧
      (simulate env opportunity).netProfitBPS = 0 ∧
      (simulate env opportunity).revertReason.isSome = true) ∧
    (∀ reason, env.tenderlyConfigured = true → env.tenderly = .reverted reason →
      (simulate env opportunity).success = false) ∧
    (simulateWithTenderly env opportunity = none →
      (env.anvilConfigured = false ∨ ∃ e, env.anvilCall = .error e) →
      (simulate env opportunity).success = false) := by
  refine ⟨?_, ?_, ?_⟩
  · intro hfail
    rcases simulate_cases env opportunity with ⟨e, he⟩ | hsucc
    · rw [he]
      simp [failedSimulation]
    · rw [hsucc] at hfail
      exact absurd hfail (by simp)
  · intro reason henv hrev
    have hT : simulateWithTenderly env opportunity =
        some (failedSimulation (reason.getD "Unknown revert")) := by
      unfold simulateWithTenderly
      rw [henv, hrev]
      simp
    unfold simulate
    rcases hb : buildArbitrageTransaction opportunity with e | tx <;>
      simp only [hb, henv, if_true, hT, failedSimulation]
  · intro hT hanvil
    unfold simulate
    rcases hb : buildArbitrageTransaction opportunity with e | tx <;> simp only [hb]
    · rfl
    · have hTif : (if env.tenderlyConfigured then simulateWithTenderly env opportunity
          else none) = none := by
        rcases henv : env.tenderlyConfigured <;> simp [hT]
      simp only [hTif]
      rcases hanvil with hna | ⟨e, herr⟩
      · simp only [hna, Bool.false_eq_true, if_false]
        rfl
      · rcases henv : env.anvilConfigured <;> simp only [henv, Bool.false_eq_true,
          if_false, if_true]
        · rfl
        · have : simulateWithAnvil env opportunity = .error e := by
            unfold simulateWithAnvil
            rw [henv, herr]
            simp
          simp only [this]
          rfl

/-- Claim C5 (witness at the reverting environment). -/
theorem simulate_total_failure_shape_witness :
    (simulate revertEnv baseOpportunity).success = false ∧
    (simulate revertEnv baseOpportunity).netProfit = 0 ∧
    (simulate revertEnv baseOpportunity).gasCost = 0 ∧
    (simulate revertEnv baseOpportunity).revertReason.isSome = true := by
  have h := simulate_total_failure_shape revertEnv baseOpportunity
  have hfail := h.2.1 (some "execution reverted") rfl rfl
  have hshape := h.1 hfail
  exact ⟨hfail, hshape.2.2.2.2.2.1, hshape.2.2.2.1, hshape.2.2.2.2.2.2.2⟩

/-- Any result the live-mode `try` body returns without throwing has
status `submitted`. -/
lemma executeLiveAttempt_ok_status (cfg : ExecutorConfig) (env : ExecEnv) (now : ℕ)
    (opportunity : ArbitrageOpportunity) (r : ExecutionResult)
    (h : executeLiveAttempt cfg env now opportunity = .ok r) : r.status = "submitted" := by
  unfold executeLiveAttempt at h
  rcases hsim : opportunity.simulation with _ | sim <;> rw [hsim] at h
  · simp at h
  · by_cases hbps : sim.netProfitBPS < 50
    · simp [hbps] at h
    · rcases hb : buildTransaction cfg opportunity with e | tx <;> simp [hbps, hb] at h
      rcases hsend : env.send with e | hash <;> rw [hsend] at h
      · simp at h
      · simp at h
        rw [← h]

/-- Claim C6 (counterexample): in live mode with no wallet configured,
`execute` THROWS `Wallet not configured for execution` to its caller —
the guard sits outside the `try` block — so `execute` does not always
return an `ExecutionResult`. -/
theorem execute_live_without_wallet_throws :
    execute cfgLiveNoWallet sendFailEnv 0 baseOpportunity =
      .error "Wallet not configured for execution" := rfl

/-- Claim C6 (amended): in live mode WITH a configured wallet, `execute`
never lets an exception escape: it always returns an `ExecutionResult`,
either a `submitted` one or — when validating profitability, building,
signing or sending threw — a `failed` one carrying the captured error
message. -/
theorem execute_with_wallet_never_throws (cfg : ExecutorConfig) (env : ExecEnv) (now : ℕ)
    (opportunity : ArbitrageOpportunity) (hlive : cfg.dryRunMode = false)
    (hw : cfg.wallet.isSome = true) :
    ∃ r, execute cfg env now opportunity = .ok r ∧
      (r.status = "submitted" ∨ (r.status = "failed" ∧ r.error.isSome = true)) := by
  unfold execute
  rw [hlive]
  rcases hwallet : cfg.wallet with _ | w
  · rw [hwallet] at hw
    simp at hw
  · simp only [Bool.false_eq_true, if_false]
    rcases hA : executeLiveAttempt cfg env now opportunity with e | r <;> simp only [hA]
    · exact ⟨_, rfl, Or.inr ⟨rfl, rfl⟩⟩
    · exact ⟨r, rfl, Or.inl (executeLiveAttempt_ok_status cfg env now opportunity r hA)⟩

/-- Claim C6 (witness: live mode, wallet configured, sending throws —
the result is a returned `failed` record, not an exception). -/
theorem execute_with_wallet_never_throws_witness :
    ∃ r, execute cfgLiveWallet sendFailEnv 0 baseOpportunity = .ok r ∧
      (r.status = "submitted" ∨ (r.status = "failed" ∧ r.error.isSome = true)) :=
  execute_with_wallet_never_throws cfgLiveWallet sendFailEnv 0 baseOpportunity rfl rfl

/-- Closed form of the constant-product slippage: for positive reserves
and a positive input, the computed BPS value is exactly
`10000 * amountIn / (reserve0 + amountIn)`. -/
lemma estimateSwapSlippage_closed_form (pool : PoolState)
    (hv2 : truthyInt pool.sqrtPriceX96 = false)
    (hr0 : 0 < pool.reserve0) (hr1 : 0 < pool.reserve1) (a : ℤ) (ha : 0 < a) :
    estimateSwapSlippage pool a =
      10000 * (a : ℚ) / ((pool.reserve0 : ℚ) + (a : ℚ)) := by
  have h0 : (0 : ℚ) < (pool.reserve0 : ℚ) := by exact_mod_cast hr0
  have h1 : (0 : ℚ) < (pool.reserve1 : ℚ) := by exact_mod_cast hr1
  have ha' : (0 : ℚ) < (a : ℚ) := by exact_mod_cast ha
  have hsum : (0 : ℚ) < (pool.reserve0 : ℚ) + (a : ℚ) := by linarith
  unfold estimateSwapSlippage
  rw [hv2]
  simp only [Bool.false_eq_true, if_false]
  have e0 : (pool.reserve0 : ℚ) ≠ 0 := h0.ne'
  have e1 : (pool.reserve1 : ℚ) ≠ 0 := h1.ne'
  have ea : (a : ℚ) ≠ 0 := ha'.ne'
  have es : (pool.reserve0 : ℚ) + (a : ℚ) ≠ 0 := hsum.ne'
  field_simp
  ring

/-- Claim C8: for a constant-product pool with positive reserves, the
computed slippage equals `10000 * amountIn / (reserve0 + amountIn)` BPS
(i.e. the slippage fraction is `amountIn / (reserve0 + amountIn)`), is
non-negative for every positive `amountIn`, and is strictly increasing
in `amountIn`. -/
theorem constant_product_slippage_nonneg_strict_mono (pool : PoolState)
    (hv2 : truthyInt pool.sqrtPriceX96 = false)
    (hr0 : 0 < pool.reserve0) (hr1 : 0 < pool.reserve1) :
    (∀ a : ℤ, 0 < a →
      estimateSwapSlippage pool a =
        10000 * (a : ℚ) / ((pool.reserve0 : ℚ) + (a : ℚ)) ∧
      0 ≤ estimateSwapSlippage pool a) ∧
    (∀ a b : ℤ, 0 < a → a < b →
      estimateSwapSlippage pool a < estimateSwapSlippage pool b) := by
  have h0 : (0 : ℚ) < (pool.reserve0 : ℚ) := by exact_mod_cast hr0
  constructor
  · intro a ha
    have ha' : (0 : ℚ) < (a : ℚ) := by exact_mod_cast ha
    have hform := estimateSwapSlippage_closed_form pool hv2 hr0 hr1 a ha
    refine ⟨hform, ?_⟩
    rw [hform]
    positivity
  · intro a b ha hab
    have hb : (0 : ℤ) < b := lt_trans ha hab
    have ha' : (0 : ℚ) < (a : ℚ) := by exact_mod_cast ha
    have hb' : (0 : ℚ) < (b : ℚ) := by exact_mod_cast hb
    have hab' : (a : ℚ) < (b : ℚ) := by exact_mod_cast hab
    rw [estimateSwapSlippage_closed_form pool hv2 hr0 hr1 a ha,
      estimateSwapSlippage_closed_form pool hv2 hr0 hr1 b hb]
    rw [div_lt_div_iff₀ (by linarith) (by linarith)]
    nlinarith

/-- Claim C8 (witness on the `[1000, 2000]` pool at inputs 500 < 600). -/
theorem constant_product_slippage_witness :
    estimateSwapSlippage poolHigh 500 =
      10000 * (500 : ℚ) / ((1000 : ℚ) + (500 : ℚ)) ∧
    0 ≤ estimateSwapSlippage poolHigh 500 ∧
    estimateSwapSlippage poolHigh 500 < estimateSwapSlippage poolHigh 600 := by
  have h := constant_product_slippage_nonneg_strict_mono poolHigh rfl
    (by norm_num [poolHigh, mkV2Pool]) (by norm_num [poolHigh, mkV2Pool])
  have h500 := h.1 500 (by norm_num)
  refine ⟨?_, h500.2, h.2 500 600 (by norm_num) (by norm_num)⟩
  rw [h500.1]
  norm_num [poolHigh, mkV2Pool]

/-- `priceLe` is reflexive. -/
lemma priceLe_refl : ∀ x : PoolState × ℚ, priceLe x x := fun x => le_refl x.2

/-- In a `Pairwise R` list with a reflexive `R`, the head is related to
every member. -/
lemma pairwise_head_le {α : Type _} {R : α → α → Prop} (hrefl : ∀ x, R x x) (a : α)
    (t : List α) (hp : (a :: t).Pairwise R) (x : α) (hx : x ∈ a :: t) : R a x := by
  rcases List.mem_cons.mp hx with rfl | hx'
  · exact hrefl x
  · exact List.rel_of_pairwise_cons hp hx'

/-- In a `Pairwise R` list with a reflexive `R`, every member is related
to the last element. -/
lemma pairwise_getLast_le {α : Type _} {R : α → α → Prop} (hrefl : ∀ x, R x x) :
    ∀ (l : List α), l.Pairwise R → ∀ (hne : l ≠ []) (x : α), x ∈ l → R x (l.getLast hne)
  | [], _, hne, _, _ => absurd rfl hne
  | [a], _, _, x, hx => by
    simp only [List.mem_singleton] at hx
    subst hx
    simpa using hrefl x
  | a :: b :: t, hp, _, x, hx => by
    rw [List.getLast_cons (by simp : b :: t ≠ [])]
    rcases List.mem_cons.mp hx with rfl | hx'
    · exact List.rel_of_pairwise_cons hp (List.getLast_mem _)
    · exact pairwise_getLast_le hrefl (b :: t) hp.of_cons (by simp) x hx'

/-- Claim C3: for every pair group of at least two pools, the detector
selects a minimal-price pool `pmin` and a maximal-price pool `pmax`,
emits an opportunity exactly when the raw divergence
`D = (max - min)/min` in BPS exceeds `minProfitBPS + 100`, and the
emitted opportunity carries pools `[pmin, pmax]` (cheap then expensive)
with `expectedProfitBPS = D - 100`.  The general statement assumes
every pool in the group has a positive spot price, the regime in which
the exact `ℚ` division agrees with the source's Decimal division (a
zero minimal price would make the source's divergence Infinity).
Concretely, on the reserves `[1000, 2000]` and `[1000, 1600]` with
`minProfitBPS = 80` the detector emits exactly one opportunity with
`expectedProfitBPS = 2400`. -/
theorem detector_extremes_and_threshold :
    (∀ (minProfitBPS : ℚ) (genId : String) (now : ℕ) (ps : List PoolState),
      2 ≤ ps.length →
      (∀ p ∈ ps, 0 < calculateSpotPrice p) →
      ∃ pmin pmax : PoolState, pmin ∈ ps ∧ pmax ∈ ps ∧
        (∀ p ∈ ps, calculateSpotPrice pmin ≤ calculateSpotPrice p) ∧
        (∀ p ∈ ps, calculateSpotPrice p ≤ calculateSpotPrice pmax) ∧
        ((processGroup minProfitBPS genId now ps).isSome = true ↔
          (calculateSpotPrice pmax - calculateSpotPrice pmin) / calculateSpotPrice pmin
            * 10000 > minProfitBPS + 100) ∧
        (∀ o, processGroup minProfitBPS genId now ps = some o →
          o.pools = [pmin, pmax] ∧
          o.expectedProfitBPS =
            (calculateSpotPrice pmax - calculateSpotPrice pmin) / calculateSpotPrice pmin
              * 10000 - 100)) ∧
    detectCrossArbitrage [poolHigh, poolLow] 80 "arb-1" 0 = [scenario1Opportunity] := by
  constructor
  · intro minProfitBPS genId now ps hlen _hpos
    set l := ps.map (fun p => (p, calculateSpotPrice p)) with hl
    have hperm : List.Perm (List.insertionSort priceLe l) l :=
      List.perm_insertionSort priceLe l
    have hsorted : List.Sorted priceLe (List.insertionSort priceLe l) :=
      List.sorted_insertionSort priceLe l
    obtain ⟨low, rest, hs⟩ : ∃ low rest, List.insertionSort priceLe l = low :: rest := by
      rcases hcase : List.insertionSort priceLe l with _ | ⟨low, rest⟩
      · exfalso
        have hle := hperm.length_eq
        rw [hcase, hl] at hle
        simp at hle
        omega
      · exact ⟨low, rest, rfl⟩
    set lastEntry := (low :: rest).getLast (by simp) with hlastdef
    have hmem_sorted : ∀ x ∈ low :: rest, x ∈ l := by
      intro x hx
      exact hperm.mem_iff.mp (hs ▸ hx)
    have hx_form : ∀ x ∈ l, x.1 ∈ ps ∧ x.2 = calculateSpotPrice x.1 := by
      intro x hx
      rw [hl] at hx
      rcases List.mem_map.mp hx with ⟨p, hp, rfl⟩
      exact ⟨hp, rfl⟩
    have hlow_mem : low ∈ l := hmem_sorted low (by simp)
    have hlast_mem : lastEntry ∈ l := hmem_sorted _ (List.getLast_mem _)
    have hpair : (low :: rest).Pairwise priceLe := hs ▸ hsorted
    have hps_mem : ∀ p ∈ ps, (p, calculateSpotPrice p) ∈ low :: rest := by
      intro p hp
      rw [← hs]
      exact hperm.mem_iff.mpr (by rw [hl]; exact List.mem_map_of_mem _ hp)
    have hLow2 : low.2 = calculateSpotPrice low.1 := (hx_form low hlow_mem).2
    have hLast2 : lastEntry.2 = calculateSpotPrice lastEntry.1 := (hx_form _ hlast_mem).2
    have hproc : processGroup minProfitBPS genId now ps =
        mkCrossOpportunity minProfitBPS genId now low lastEntry := by
      unfold processGroup
      rw [if_neg (by omega)]
      simp only [← hl, hs]
    refine ⟨low.1, lastEntry.1, (hx_form low hlow_mem).1, (hx_form _ hlast_mem).1,
      ?_, ?_, ?_, ?_⟩
    · intro p hp
      have hb := pairwise_head_le priceLe_refl low rest hpair _ (hps_mem p hp)
      rw [← hLow2]
      exact hb
    · intro p hp
      have hb := pairwise_getLast_le priceLe_refl (low :: rest) hpair (by simp)
        _ (hps_mem p hp)
      rw [← hLast2]
      exact hb
    · rw [hproc, ← hLow2, ← hLast2]
      simp only [mkCrossOpportunity]
      split_ifs with hcond <;> simp [hcond]
    · intro o ho
      rw [hproc] at ho
      simp only [mkCrossOpportunity] at ho
      split_ifs at ho with hcond
      simp only [Option.some.injEq] at ho
      rw [← hLow2, ← hLast2, ← ho]
      exact ⟨rfl, rfl⟩
  · have hspotH : calculateSpotPrice poolHigh = 2 := by
      norm_num [calculateSpotPrice, truthyInt, poolHigh, mkV2Pool]
    have hspotL : calculateSpotPrice poolLow = 8 / 5 := by
      norm_num [calculateSpotPrice, truthyInt, poolLow, mkV2Pool]
    have hgroup : groupByPair [poolHigh, poolLow] =
        [("0xtoken0-0xtoken1", [poolHigh, poolLow])] := by decide
    have hsort : List.insertionSort priceLe
        ([poolHigh, poolLow].map fun p => (p, calculateSpotPrice p)) =
        [(poolLow, calculateSpotPrice poolLow), (poolHigh, calculateSpotPrice poolHigh)] := by
      simp only [List.map_cons, List.map_nil, List.insertionSort, List.orderedInsert]
      rw [if_neg (by norm_num [priceLe, hspotH, hspotL])]
    have hpg : processGroup 80 "arb-1" 0 [poolHigh, poolLow] = some scenario1Opportunity := by
      unfold processGroup
      rw [if_neg (by norm_num)]
      simp only [hsort, mkCrossOpportunity, List.getLast, hspotH, hspotL]
      rw [if_pos (by norm_num)]
      norm_num [scenario1Opportunity, poolLow, mkV2Pool, tokenA, tokenB]
    unfold detectCrossArbitrage
    rw [hgroup]
    simp only [List.filterMap_cons, List.filterMap_nil, hpg]

/-- Claim C3 (witness: the general statement applied to the concrete
two-pool group of Scenario 1). -/
theorem detector_extremes_and_threshold_witness :
    ∃ pmin pmax : PoolState, pmin ∈ [poolHigh, poolLow] ∧ pmax ∈ [poolHigh, poolLow] ∧
      (∀ p ∈ [poolHigh, poolLow], calculateSpotPrice pmin ≤ calculateSpotPrice p) ∧
      (∀ p ∈ [poolHigh, poolLow], calculateSpotPrice p ≤ calculateSpotPrice pmax) ∧
      ((processGroup 80 "arb-1" 0 [poolHigh, poolLow]).isSome = true ↔
        (calculateSpotPrice pmax - calculateSpotPrice pmin) / calculateSpotPrice pmin
          * 10000 > 80 + 100) ∧
      (∀ o, processGroup 80 "arb-1" 0 [poolHigh, poolLow] = some o →
        o.pools = [pmin, pmax] ∧
        o.expectedProfitBPS =
          (calculateSpotPrice pmax - calculateSpotPrice pmin) / calculateSpotPrice pmin
            * 10000 - 100) :=
  detector_extremes_and_threshold.1 80 "arb-1" 0 [poolHigh, poolLow] (by norm_num)
    (by
      intro p hp
      rcases List.mem_cons.mp hp with rfl | hp'
      · norm_num [calculateSpotPrice, truthyInt, poolHigh, mkV2Pool]
      · rw [List.mem_singleton.mp hp']
        norm_num [calculateSpotPrice, truthyInt, poolLow, mkV2Pool])

end ArbMonitor
